import Mathlib

/-!
Verification of the candidate-screening pipeline (pma8/candidate_screener).

The Python sources are shallowly embedded: each stage's pure computation is a
Lean function; the outcome of an external call (web search, text-structuring
model) is an explicit parameter, `none` / a failure constructor standing for a
raised exception or an unparseable response, `some data` for a successfully
parsed JSON object whose optional fields mirror Python's `dict.get` defaults.
Python floats that only ever hold small decimal fractions are embedded as `ℚ`.
-/

namespace CandidateScreener

/-! ## Data model (src/models.py) -/

/-- `FakeRisk` enum (models.py). -/
inductive FakeRisk where
  | definitely_fake
  | likely_fake
  | uncertain
  | likely_real
  | verified
deriving DecidableEq, Repr

/-- The `.value` string of each `FakeRisk` member (models.py). -/
def FakeRisk.value : FakeRisk → String
  | .definitely_fake => "definitely_fake"
  | .likely_fake => "likely_fake"
  | .uncertain => "uncertain"
  | .likely_real => "likely_real"
  | .verified => "verified"

/-- `Candidate` dataclass (models.py): raw candidate data parsed from the CSV. -/
structure Candidate where
  name : String
  email : String
  job_title : String := ""
  headline : String := ""
  creation_time : String := ""
  stage : String := ""
  tags : String := ""
  job_department : String := ""
  job_location : String := ""
  source : String := ""
  candidate_type : String := ""
  phone : String := ""
  address : String := ""
  summary : String := ""
  keywords : String := ""
  educations : String := ""
  experiences : String := ""
  skills : String := ""
  social_profiles : String := ""
deriving DecidableEq, Repr

/-- `LinkedInProfile` dataclass (models.py); all defaults empty / `false`. -/
structure LinkedInProfile where
  found : Bool := false
  url : String := ""
  current_title : String := ""
  current_company : String := ""
  past_roles : List String := []
  education : List String := []
  location : String := ""
  summary : String := ""
  raw_search_results : String := ""
deriving DecidableEq, Repr

/-- `FakeDetectionResult` dataclass (models.py); default is `uncertain`/50/empty. -/
structure FakeDetectionResult where
  risk_level : FakeRisk := .uncertain
  confidence_score : Int := 50
  reasons : List String := []
  details : String := ""
deriving DecidableEq, Repr

/-- `QualificationScore` dataclass (models.py); default is all-zero/empty. -/
structure QualificationScore where
  skills_match : Int := 0
  experience_relevance : Int := 0
  experience_level : Int := 0
  education : Int := 0
  overall_impression : Int := 0
  composite_score : ℚ := 0
  justification : String := ""
  strengths : List String := []
  concerns : List String := []
deriving DecidableEq, Repr

/-- `ScreenedCandidate` dataclass (models.py). -/
structure ScreenedCandidate where
  candidate : Candidate
  linkedin : LinkedInProfile
  fake_detection : FakeDetectionResult
  qualification : QualificationScore
deriving DecidableEq, Repr

/-- `ScreenedCandidate.is_flagged_fake` property (models.py):
membership of the risk level in `{DEFINITELY_FAKE, LIKELY_FAKE}`. -/
def ScreenedCandidate.is_flagged_fake (s : ScreenedCandidate) : Bool :=
  s.fake_detection.risk_level == .definitely_fake
    || s.fake_detection.risk_level == .likely_fake

/-- `ScreenedCandidate.final_score` property (models.py):
`0.0` when flagged fake, else the qualification's composite score. -/
def ScreenedCandidate.final_score (s : ScreenedCandidate) : ℚ :=
  if s.is_flagged_fake then 0 else s.qualification.composite_score

/-! ## Configuration (src/config.py) -/

/-- `ScoringWeights` dataclass (config.py) with its default weights. -/
structure ScoringWeights where
  skills_match : ℚ := 0.35
  experience_relevance : ℚ := 0.25
  experience_level : ℚ := 0.20
  education : ℚ := 0.10
  overall_impression : ℚ := 0.10
deriving DecidableEq, Repr

/-- `Config` dataclass (config.py); the model string is irrelevant to the
embedded computations and omitted. -/
structure Config where
  anthropic_api_key : String := ""
  tavily_api_key : String := ""
  batch_size : Nat := 5
  search_max_results : Nat := 5
  scoring_weights : ScoringWeights := {}
  fake_flag_threshold : Int := 40
  report_top_n : Nat := 20
  column_mapping : List (String × String) := []
deriving DecidableEq, Repr

/-! ## Scoring stage (src/scorer.py) -/

/-- The JSON object a successful external scoring call yields (scorer.py):
each field optional, mirroring `data.get(..., default)`.  `composite_score`
stands for a stray composite field the external call could include; the code
never reads it. -/
structure ScoreJson where
  skills_match : Option Int := none
  experience_relevance : Option Int := none
  experience_level : Option Int := none
  education : Option Int := none
  overall_impression : Option Int := none
  composite_score : Option ℚ := none
  justification : Option String := none
  strengths : Option (List String) := none
  concerns : Option (List String) := none
deriving DecidableEq, Repr

/-- `score_candidate` (scorer.py, lines 92–131), after the external call:
`none` models a raised call / JSON parse error (the `except` branch returning
`QualificationScore()`); `some data` models a parsed JSON object.  On success
the five dimension scores default to 0 per missing field and the composite is
computed locally as the weighted sum, with no clamping. -/
def score_candidate (w : ScoringWeights) (outcome : Option ScoreJson) :
    QualificationScore :=
  match outcome with
  | none => {}
  | some data =>
    let score : QualificationScore :=
      { skills_match := data.skills_match.getD 0
        experience_relevance := data.experience_relevance.getD 0
        experience_level := data.experience_level.getD 0
        education := data.education.getD 0
        overall_impression := data.overall_impression.getD 0
        justification := data.justification.getD ""
        strengths := data.strengths.getD []
        concerns := data.concerns.getD [] }
    { score with
        composite_score :=
          (score.skills_match : ℚ) * w.skills_match
            + (score.experience_relevance : ℚ) * w.experience_relevance
            + (score.experience_level : ℚ) * w.experience_level
            + (score.education : ℚ) * w.education
            + (score.overall_impression : ℚ) * w.overall_impression }

/-! ## Authenticity stage (src/fake_detector.py) -/

/-- The JSON object a successful external authenticity call yields
(fake_detector.py); each field optional, mirroring `data.get` defaults. -/
structure FakeJson where
  risk_level : Option String := none
  confidence_score : Option Int := none
  reasons : Option (List String) := none
  details : Option String := none
deriving DecidableEq, Repr

/-- `risk_map.get(s, FakeRisk.UNCERTAIN)` (fake_detector.py, lines 84–85):
`risk_map` maps each member's `.value` string to the member, so lookup of any
other string falls back to `UNCERTAIN`. -/
def parseRiskLevel (s : String) : FakeRisk :=
  if s = "definitely_fake" then .definitely_fake
  else if s = "likely_fake" then .likely_fake
  else if s = "uncertain" then .uncertain
  else if s = "likely_real" then .likely_real
  else if s = "verified" then .verified
  else .uncertain

/-- `detect_fake` (fake_detector.py, lines 69–95), after the external call:
`none` models a raised call / JSON parse error (the `except` branch returning
`FakeDetectionResult()`); `some data` models a parsed JSON object, whose
`risk_level` string defaults to `"uncertain"` when absent and is looked up in
`risk_map` with fallback `UNCERTAIN`. -/
def detect_fake (outcome : Option FakeJson) : FakeDetectionResult :=
  match outcome with
  | none => {}
  | some data =>
    { risk_level := parseRiskLevel (data.risk_level.getD "uncertain")
      confidence_score := data.confidence_score.getD 50
      reasons := data.reasons.getD []
      details := data.details.getD "" }

/-! ## Enrichment stage (src/enrichment.py) -/

/-- The JSON object a successful external structuring call yields
(enrichment.py); each field optional, mirroring `data.get` defaults. -/
structure LinkedInJson where
  found : Option Bool := none
  url : Option String := none
  current_title : Option String := none
  current_company : Option String := none
  past_roles : Option (List String) := none
  education : Option (List String) := none
  location : Option String := none
  summary : Option String := none
deriving DecidableEq, Repr

/-- Outcome of the `try` block in `enrich_candidate` (enrichment.py):
`callFailure` models any exception raised by the web search or by the
structuring call itself (caught by the outer `except`); `parseFailure raw`
models `json.loads` raising `JSONDecodeError` on the structuring output for
search payload `raw`; `parsed raw data` models a successfully parsed object. -/
inductive EnrichOutcome where
  | callFailure
  | parseFailure (raw : String)
  | parsed (raw : String) (data : LinkedInJson)
deriving DecidableEq, Repr

/-- `_parse_linkedin_with_llm` (enrichment.py, lines 87–111), after the
structuring call: on `JSONDecodeError` (`none`) it returns
`LinkedInProfile(raw_search_results=raw)`; on success it fills each field from
the parsed object with `data.get` defaults, carrying `raw` along. -/
def parse_linkedin_with_llm (raw : String) (parseOutcome : Option LinkedInJson) :
    LinkedInProfile :=
  match parseOutcome with
  | none => { raw_search_results := raw }
  | some data =>
    { found := data.found.getD false
      url := data.url.getD ""
      current_title := data.current_title.getD ""
      current_company := data.current_company.getD ""
      past_roles := data.past_roles.getD []
      education := data.education.getD []
      location := data.location.getD ""
      summary := data.summary.getD ""
      raw_search_results := raw }

/-- `enrich_candidate` (enrichment.py, lines 114–125): a missing Tavily key
short-circuits to the default profile; any exception inside the `try` block
yields the default profile; otherwise the parse result is returned. -/
def enrich_candidate (tavily_api_key : String) (outcome : EnrichOutcome) :
    LinkedInProfile :=
  if tavily_api_key = "" then {}
  else
    match outcome with
    | .callFailure => {}
    | .parseFailure raw => parse_linkedin_with_llm raw none
    | .parsed raw data => parse_linkedin_with_llm raw (some data)

/-! ## Per-candidate task (src/main.py, `_process_one`) -/

/-- The outcomes of the three external interactions for one candidate's task. -/
structure TaskOutcome where
  enrich : EnrichOutcome
  fake : Option FakeJson
  score : Option ScoreJson
deriving DecidableEq, Repr

/-- `_process_one` (main.py, lines 24–49): enrichment, then fake detection,
then — only when the risk level's `.value` string is not in
`("definitely_fake", "likely_fake")` — scoring; a flagged candidate keeps the
default `QualificationScore()`. -/
def process_one (config : Config) (candidate : Candidate) (t : TaskOutcome) :
    ScreenedCandidate :=
  let linkedin := enrich_candidate config.tavily_api_key t.enrich
  let fake_result := detect_fake t.fake
  let qualification :=
    if fake_result.risk_level.value = "definitely_fake"
        ∨ fake_result.risk_level.value = "likely_fake" then
      ({} : QualificationScore)
    else
      score_candidate config.scoring_weights t.score
  { candidate := candidate
    linkedin := linkedin
    fake_detection := fake_result
    qualification := qualification }

/-! ## Aggregation step (src/report.py, lines 34–37 and 140) -/

/-- The comparison `generate_report` sorts with: Python's
`sorted(valid, key=lambda s: s.final_score, reverse=True)` is the stable
descending sort by `final_score`, i.e. a stable merge sort with `a` allowed
before `b` exactly when `b.final_score ≤ a.final_score`. -/
def scoreDescLE (a b : ScreenedCandidate) : Bool :=
  decide (b.final_score ≤ a.final_score)

/-- The aggregation step of `generate_report` (report.py): `fakes` and `valid`
partition the input by `is_flagged_fake` (lines 34–35), `valid_sorted` sorts
the non-flagged partition by `final_score` descending (line 36), `top` is its
first `report_top_n` elements (line 37) and `rest` the remainder (line 140). -/
def reportPartition (screened : List ScreenedCandidate) (top_n : Nat) :
    List ScreenedCandidate × List ScreenedCandidate × List ScreenedCandidate :=
  let fakes := screened.filter (fun s => s.is_flagged_fake)
  let valid := screened.filter (fun s => !s.is_flagged_fake)
  let valid_sorted := valid.mergeSort scoreDescLE
  (fakes, valid_sorted.take top_n, valid_sorted.drop top_n)

/-! ## Orchestrator (src/main.py, `run_pipeline`) -/

/-- The result-collection loop of `run_pipeline` (main.py, lines 87–101), over
the per-candidate futures in completion order: `future.result()` either yields
a `ScreenedCandidate`, appended to `screened`, or raises, in which case the
error is logged with the candidate's name and nothing is appended.  Returns
the collected results together with the `(candidate name, error)` log. -/
def collect_results :
    List (Candidate × Except String ScreenedCandidate) →
      List ScreenedCandidate × List (String × String)
  | [] => ([], [])
  | (c, r) :: rest =>
    let acc := collect_results rest
    match r with
    | .ok s => (s :: acc.1, acc.2)
    | .error e => (acc.1, (c.name, e) :: acc.2)

/-! ## CSV parsing (src/csv_parser.py)

The byte-level concerns (file reading, encoding fallback, the `csv` reader)
are out of the embedding; `parse_csv` here takes the already-decoded rows, the
first row being the header, exactly as `csv_parser.py` sees them after
`csv.reader`. -/

/-- Python's whitespace set for `str.strip`, restricted to ASCII (the CSV
cells the pipeline handles): space, tab, newline, carriage return, vertical
tab, form feed. -/
def isPyWhitespace (c : Char) : Bool :=
  c == ' ' || c == '\t' || c == '\n' || c == '\r'
    || c == Char.ofNat 11 || c == Char.ofNat 12

/-- Python `str.strip()`: drop leading and trailing whitespace. -/
def pyStrip (s : String) : String :=
  ⟨((s.data.dropWhile isPyWhitespace).reverse.dropWhile isPyWhitespace).reverse⟩

/-- Python `str.lower()` on one character, restricted to ASCII. -/
def pyLowerChar (c : Char) : Char :=
  if 'A' ≤ c ∧ c ≤ 'Z' then Char.ofNat (c.toNat + 32) else c

/-- Python `str.lower()`, restricted to ASCII. -/
def pyLower (s : String) : String := ⟨s.data.map pyLowerChar⟩

/-- `DEFAULT_COLUMN_MAP` (csv_parser.py, lines 13–33). -/
def DEFAULT_COLUMN_MAP : List (String × List String) :=
  [ ("name", ["name", "candidate name", "full name", "candidate"])
  , ("email", ["email", "email address", "e-mail"])
  , ("job_title", ["job title", "job", "position", "applied for"])
  , ("headline", ["headline", "title", "professional headline"])
  , ("creation_time",
      ["creation time", "created", "applied date", "date applied", "applied on"])
  , ("stage", ["stage", "pipeline stage", "status"])
  , ("tags", ["tags", "labels"])
  , ("job_department", ["job department", "department"])
  , ("job_location", ["job location", "location"])
  , ("source", ["source", "sourced from", "channel"])
  , ("candidate_type", ["type", "candidate type"])
  , ("phone", ["phone", "phone number", "mobile"])
  , ("address", ["address", "location", "city"])
  , ("summary", ["summary", "bio", "about"])
  , ("keywords", ["keywords"])
  , ("educations", ["educations", "education"])
  , ("experiences", ["experiences", "experience", "work experience"])
  , ("skills", ["skills", "skill set"])
  , ("social_profiles",
      ["social profiles", "linkedin", "linkedin url", "social links", "social"])
  ]

/-- The candidate column headers tried for one field after applying user
overrides (csv_parser.py, lines 40–45): an override replaces the field's list
with the single lower-cased header. -/
def column_candidates (overrides : List (String × String)) (fieldName : String) :
    List String :=
  match overrides.find? (fun p => p.1 == fieldName) with
  | some p => [pyLower p.2]
  | none => ((DEFAULT_COLUMN_MAP.find? (fun p => p.1 == fieldName)).map
      (fun p => p.2)).getD []

/-- `_build_column_index` (csv_parser.py, lines 36–56), read as a lookup
function: for one field, the first candidate header present in the lower-cased,
stripped header row wins, at its first index. -/
def build_column_index (headers : List String)
    (overrides : List (String × String)) (fieldName : String) : Option Nat :=
  let header_lower := headers.map (fun h => pyLower (pyStrip h))
  (column_candidates overrides fieldName).findSome? fun n =>
    if header_lower.contains n then some (header_lower.findIdx (· == n))
    else none

/-- `_get` (csv_parser.py, lines 59–64): missing or out-of-range index yields
`""`, otherwise the stripped cell. -/
def get_field (row : List String) (idx : Option Nat) : String :=
  match idx with
  | none => ""
  | some i => if row.length ≤ i then "" else pyStrip (row.getD i "")

/-- The body of the row loop of `parse_csv` (csv_parser.py, lines 93–125):
a fully blank row is skipped, a row with neither name nor email is skipped,
otherwise a `Candidate` is built from the indexed, stripped cells. -/
def parse_row (index : String → Option Nat) (row : List String) :
    Option Candidate :=
  if row.all (fun cell => pyStrip cell == "") then none
  else
    let name := get_field row (index "name")
    let email := get_field row (index "email")
    if name = "" ∧ email = "" then none
    else
      some
        { name := name
          email := email
          job_title := get_field row (index "job_title")
          headline := get_field row (index "headline")
          creation_time := get_field row (index "creation_time")
          stage := get_field row (index "stage")
          tags := get_field row (index "tags")
          job_department := get_field row (index "job_department")
          job_location := get_field row (index "job_location")
          source := get_field row (index "source")
          candidate_type := get_field row (index "candidate_type")
          phone := get_field row (index "phone")
          address := get_field row (index "address")
          summary := get_field row (index "summary")
          keywords := get_field row (index "keywords")
          educations := get_field row (index "educations")
          experiences := get_field row (index "experiences")
          skills := get_field row (index "skills")
          social_profiles := get_field row (index "social_profiles") }

/-- `parse_csv` (csv_parser.py, lines 67–127) over decoded rows: fewer than two
rows yield no candidates; otherwise each body row is turned into at most one
candidate by `parse_row` under the header's column index. -/
def parse_csv (rows : List (List String))
    (overrides : List (String × String)) : List Candidate :=
  match rows with
  | [] => []
  | headers :: body =>
    if body.isEmpty then []
    else body.filterMap (parse_row (build_column_index headers overrides))

/-! ## Whole-run orchestration (src/main.py, `run_pipeline`) -/

/-- The observable outcome of one `run_pipeline` invocation (main.py):
`exitMissingApiKey` is the `sys.exit(1)` on a missing Anthropic key (line 63),
`exitNoCandidates` the `sys.exit(0)` on an empty candidate list (line 72),
`errorCsvNotFound` the `FileNotFoundError` raised by `parse_csv` on a missing
CSV file (csv_parser.py, line 71), `errorJdNotFound` the `FileNotFoundError`
raised by `load_job_description` (scorer.py, line 24), and `completed` carries
the collected screened results. -/
inductive RunOutcome where
  | exitMissingApiKey
  | exitNoCandidates
  | errorCsvNotFound
  | errorJdNotFound
  | completed (screened : List ScreenedCandidate)
deriving DecidableEq, Repr

/-- Whether a run outcome is an abort (no report is produced). -/
def RunOutcome.isAborted : RunOutcome → Bool
  | .completed _ => false
  | _ => true

/-- `run_pipeline` (main.py, lines 52–115), up to result collection.  `csv` is
the decoded row list of the CSV file, `none` when the file is missing; `jd` is
the job-description text, `none` when that file is missing; `task` gives each
dispatched per-candidate task's outcome (`_process_one`'s result, or the error
it raised).  Returns the run outcome together with the list of candidates for
which tasks were dispatched, which witnesses that every abort happens before
any dispatch. -/
def run_pipeline (config : Config) (csv : Option (List (List String)))
    (jd : Option String) (task : Candidate → Except String ScreenedCandidate) :
    RunOutcome × List Candidate :=
  if config.anthropic_api_key = "" then (.exitMissingApiKey, [])
  else
    match csv with
    | none => (.errorCsvNotFound, [])
    | some rows =>
      let candidates := parse_csv rows config.column_mapping
      if candidates.isEmpty then (.exitNoCandidates, [])
      else
        match jd with
        | none => (.errorJdNotFound, [])
        | some _ =>
          (.completed (collect_results (candidates.map fun c => (c, task c))).1,
            candidates)

/-! ## Theorems -/

/-- The default scoring-stage fixture of the spec: dimension scores
[80, 70, 60, 90, 50]. -/
def fixtureScores : ScoreJson :=
  { skills_match := some 80, experience_relevance := some 70,
    experience_level := some 60, education := some 90,
    overall_impression := some 50 }

/-- C1: for every weight vector and every parsed scoring response, the
composite score computed by `score_candidate` is exactly the dot product of
the five recorded dimension scores with the five configured weights; each
dimension score is the response's value (default 0), passed through with no
clamping to [0,100]; the result is independent of any composite the external
call might return; and on the fixture weights [0.35,0.25,0.20,0.10,0.10]
with scores [80,70,60,90,50] the composite equals 71.5. -/
theorem score_candidate_composite_dot_product
    (w : ScoringWeights) (data : ScoreJson) (x : Option ℚ) :
    ((score_candidate w (some data)).composite_score =
        ((score_candidate w (some data)).skills_match : ℚ) * w.skills_match
          + ((score_candidate w (some data)).experience_relevance : ℚ)
              * w.experience_relevance
          + ((score_candidate w (some data)).experience_level : ℚ)
              * w.experience_level
          + ((score_candidate w (some data)).education : ℚ) * w.education
          + ((score_candidate w (some data)).overall_impression : ℚ)
              * w.overall_impression)
      ∧ (score_candidate w (some data)).skills_match = data.skills_match.getD 0
      ∧ (score_candidate w (some data)).experience_relevance
          = data.experience_relevance.getD 0
      ∧ (score_candidate w (some data)).experience_level
          = data.experience_level.getD 0
      ∧ (score_candidate w (some data)).education = data.education.getD 0
      ∧ (score_candidate w (some data)).overall_impression
          = data.overall_impression.getD 0
      ∧ score_candidate w (some { data with composite_score := x })
          = score_candidate w (some data)
      ∧ (score_candidate {} (some fixtureScores)).composite_score = 71.5 := by
  refine ⟨rfl, rfl, rfl, rfl, rfl, rfl, rfl, ?_⟩
  norm_num [score_candidate, fixtureScores, ScoringWeights.skills_match,
    ScoringWeights.experience_relevance, ScoringWeights.experience_level,
    ScoringWeights.education, ScoringWeights.overall_impression]

/-- C3: an unrecognized (or missing) risk-level string maps to `uncertain`,
and a failed call or unparseable response yields the default
`FakeDetectionResult` (`uncertain`, confidence 50, no reasons, empty
details); `detect_fake` is a total function, so it never raises. -/
theorem detect_fake_defaults (s : String) (data : FakeJson)
    (h1 : s ≠ "definitely_fake") (h2 : s ≠ "likely_fake")
    (h3 : s ≠ "uncertain") (h4 : s ≠ "likely_real") (h5 : s ≠ "verified") :
    parseRiskLevel s = FakeRisk.uncertain
      ∧ (data.risk_level = none →
          (detect_fake (some data)).risk_level = FakeRisk.uncertain)
      ∧ detect_fake none =
          { risk_level := FakeRisk.uncertain, confidence_score := 50,
            reasons := [], details := "" } := by
  refine ⟨?_, ?_, rfl⟩
  · simp [parseRiskLevel, h1, h2, h3, h4, h5]
  · intro h
    simp [detect_fake, h, parseRiskLevel]

/-- C3 witness: the theorem applied to the unrecognized string `"bogus"` and
a response with no risk-level field. -/
theorem detect_fake_defaults_witness :
    parseRiskLevel "bogus" = FakeRisk.uncertain
      ∧ (({} : FakeJson).risk_level = none →
          (detect_fake (some {})).risk_level = FakeRisk.uncertain)
      ∧ detect_fake none =
          { risk_level := FakeRisk.uncertain, confidence_score := 50,
            reasons := [], details := "" } :=
  detect_fake_defaults "bogus" {} (by decide) (by decide) (by decide)
    (by decide) (by decide)

/-- C4: `enrich_candidate` is a total function, so it never raises; a missing
search credential yields the all-default profile (without attempting the
calls); a raised search or structuring call yields the all-default profile;
and a JSON parse failure specifically yields a profile that is default except
for carrying the raw search payload, in particular with `found = false`. -/
theorem enrich_candidate_defaults (key : String) (o : EnrichOutcome)
    (raw : String) (hk : key ≠ "") :
    enrich_candidate "" o = ({} : LinkedInProfile)
      ∧ enrich_candidate key .callFailure = ({} : LinkedInProfile)
      ∧ enrich_candidate key (.parseFailure raw) =
          { ({} : LinkedInProfile) with raw_search_results := raw }
      ∧ (enrich_candidate key (.parseFailure raw)).found = false := by
  refine ⟨rfl, ?_, ?_, ?_⟩ <;>
    simp [enrich_candidate, parse_linkedin_with_llm, hk]

/-- C4 witness: the theorem applied to the key `"tvly-key"`, a raised call,
and the raw payload `"raw payload"`. -/
theorem enrich_candidate_defaults_witness :
    enrich_candidate "" EnrichOutcome.callFailure = ({} : LinkedInProfile)
      ∧ enrich_candidate "tvly-key" .callFailure = ({} : LinkedInProfile)
      ∧ enrich_candidate "tvly-key" (.parseFailure "raw payload") =
          { ({} : LinkedInProfile) with raw_search_results := "raw payload" }
      ∧ (enrich_candidate "tvly-key" (.parseFailure "raw payload")).found
          = false :=
  enrich_candidate_defaults "tvly-key" EnrichOutcome.callFailure "raw payload"
    (by decide)

/-- The string test `_process_one` branches on agrees with the enum test of
`is_flagged_fake`. -/
theorem risk_value_flag_iff (r : FakeRisk) :
    (r.value = "definitely_fake" ∨ r.value = "likely_fake") ↔
      (r == FakeRisk.definitely_fake || r == FakeRisk.likely_fake) = true := by
  cases r <;> simp [FakeRisk.value]

/-- C2: for every candidate and every triple of external outcomes, if the
authenticity result is `definitely_fake` or `likely_fake` (i.e. the screened
result is flagged), the per-candidate task yields the default all-zero
`QualificationScore`, its final score is 0, and its result does not depend on
the scoring outcome at all (the scoring call is never issued); otherwise the
qualification is exactly `score_candidate`'s result and the final score
equals its composite score. -/
theorem process_one_flag_gates_scoring (config : Config) (c : Candidate)
    (e : EnrichOutcome) (f : Option FakeJson) (s s' : Option ScoreJson) :
    ((process_one config c ⟨e, f, s⟩).is_flagged_fake = true →
        (process_one config c ⟨e, f, s⟩).qualification
            = ({} : QualificationScore)
          ∧ (process_one config c ⟨e, f, s⟩).final_score = 0
          ∧ process_one config c ⟨e, f, s⟩ = process_one config c ⟨e, f, s'⟩)
      ∧ ((process_one config c ⟨e, f, s⟩).is_flagged_fake = false →
          (process_one config c ⟨e, f, s⟩).qualification
              = score_candidate config.scoring_weights s
            ∧ (process_one config c ⟨e, f, s⟩).final_score
                = (process_one config c
                    ⟨e, f, s⟩).qualification.composite_score) := by
  have hrec : ∀ sc : Option ScoreJson,
      process_one config c ⟨e, f, sc⟩ =
        { candidate := c
          linkedin := enrich_candidate config.tavily_api_key e
          fake_detection := detect_fake f
          qualification :=
            if (detect_fake f).risk_level.value = "definitely_fake"
                ∨ (detect_fake f).risk_level.value = "likely_fake" then
              ({} : QualificationScore)
            else score_candidate config.scoring_weights sc } :=
    fun _ => rfl
  have hflag : ∀ sc : Option ScoreJson,
      (process_one config c ⟨e, f, sc⟩).is_flagged_fake =
        ((detect_fake f).risk_level == FakeRisk.definitely_fake
          || (detect_fake f).risk_level == FakeRisk.likely_fake) := by
    intro sc
    rw [hrec sc]
    rfl
  by_cases hv : (detect_fake f).risk_level.value = "definitely_fake"
      ∨ (detect_fake f).risk_level.value = "likely_fake"
  · have hb := (risk_value_flag_iff _).mp hv
    constructor
    · intro _
      refine ⟨by rw [hrec s]; simp [hv], ?_, by rw [hrec s, hrec s']; simp [hv]⟩
      rw [ScreenedCandidate.final_score, if_pos]
      rw [hflag s]
      exact hb
    · intro hnot
      rw [hflag s, hb] at hnot
      exact absurd hnot (by simp)
  · have hb : ((detect_fake f).risk_level == FakeRisk.definitely_fake
        || (detect_fake f).risk_level == FakeRisk.likely_fake) = false := by
      rcases Bool.eq_false_or_eq_true
          ((detect_fake f).risk_level == FakeRisk.definitely_fake
            || (detect_fake f).risk_level == FakeRisk.likely_fake) with hb | hb
      · exact absurd ((risk_value_flag_iff _).mpr hb) hv
      · exact hb
    constructor
    · intro hflagged
      rw [hflag s, hb] at hflagged
      exact absurd hflagged (by simp)
    · intro _
      refine ⟨by rw [hrec s]; simp [hv], ?_⟩
      rw [ScreenedCandidate.final_score, if_neg]
      rw [hflag s, hb]
      simp

/-- C2 witness: the theorem applied to a `likely_fake` authenticity response
(flagged branch) and, at a different scoring outcome, to a `likely_real`
response (unflagged branch). -/
theorem process_one_flag_gates_scoring_witness :
    ((process_one {} { name := "A", email := "a@x" }
          ⟨.callFailure, some { risk_level := some "likely_fake" },
            some fixtureScores⟩).is_flagged_fake = true →
        (process_one {} { name := "A", email := "a@x" }
            ⟨.callFailure, some { risk_level := some "likely_fake" },
              some fixtureScores⟩).qualification = ({} : QualificationScore)
          ∧ (process_one {} { name := "A", email := "a@x" }
              ⟨.callFailure, some { risk_level := some "likely_fake" },
                some fixtureScores⟩).final_score = 0
          ∧ process_one {} { name := "A", email := "a@x" }
                ⟨.callFailure, some { risk_level := some "likely_fake" },
                  some fixtureScores⟩
              = process_one {} { name := "A", email := "a@x" }
                  ⟨.callFailure, some { risk_level := some "likely_fake" },
                    none⟩)
      ∧ ((process_one {} { name := "A", email := "a@x" }
            ⟨.callFailure, some { risk_level := some "likely_fake" },
              some fixtureScores⟩).is_flagged_fake = false →
          (process_one {} { name := "A", email := "a@x" }
              ⟨.callFailure, some { risk_level := some "likely_fake" },
                some fixtureScores⟩).qualification
              = score_candidate ({} : Config).scoring_weights
                  (some fixtureScores)
            ∧ (process_one {} { name := "A", email := "a@x" }
                ⟨.callFailure, some { risk_level := some "likely_fake" },
                  some fixtureScores⟩).final_score
                = (process_one {} { name := "A", email := "a@x" }
                    ⟨.callFailure, some { risk_level := some "likely_fake" },
                      some fixtureScores⟩).qualification.composite_score) :=
  process_one_flag_gates_scoring {} { name := "A", email := "a@x" }
    .callFailure (some { risk_level := some "likely_fake" })
    (some fixtureScores) none

/-- `scoreDescLE` is transitive. -/
theorem scoreDescLE_trans (a b c : ScreenedCandidate) :
    scoreDescLE a b → scoreDescLE b c → scoreDescLE a c := by
  simp only [scoreDescLE, decide_eq_true_eq]
  exact fun hab hbc => le_trans hbc hab

/-- `scoreDescLE` is total. -/
theorem scoreDescLE_total (a b : ScreenedCandidate) :
    scoreDescLE a b || scoreDescLE b a := by
  simp only [scoreDescLE, Bool.or_eq_true, decide_eq_true_eq]
  exact (le_total b.final_score a.final_score).imp id id

/-- C5: the aggregation step of `generate_report` partitions its input by
`is_flagged_fake`, sorts the non-flagged partition by `final_score`
descending, takes `top` as the first `top_n` of the sorted list and `rest` as
the remainder; the three part lengths sum to the input length, and the three
parts concatenated are a permutation of the input, so every input element
appears in exactly one part. -/
theorem report_partition_props (screened : List ScreenedCandidate)
    (top_n : Nat) :
    (reportPartition screened top_n).1
        = screened.filter (fun s => s.is_flagged_fake)
      ∧ (reportPartition screened top_n).2.1
          = ((screened.filter
              (fun s => !s.is_flagged_fake)).mergeSort scoreDescLE).take top_n
      ∧ (reportPartition screened top_n).2.2
          = ((screened.filter
              (fun s => !s.is_flagged_fake)).mergeSort scoreDescLE).drop top_n
      ∧ List.Pairwise (fun a b => b.final_score ≤ a.final_score)
          ((reportPartition screened top_n).2.1
            ++ (reportPartition screened top_n).2.2)
      ∧ (reportPartition screened top_n).1.length
            + (reportPartition screened top_n).2.1.length
            + (reportPartition screened top_n).2.2.length
          = screened.length
      ∧ ((reportPartition screened top_n).1
          ++ ((reportPartition screened top_n).2.1
            ++ (reportPartition screened top_n).2.2)).Perm screened := by
  have hsorted : (reportPartition screened top_n).2.1
      ++ (reportPartition screened top_n).2.2
      = (screened.filter (fun s => !s.is_flagged_fake)).mergeSort
          scoreDescLE := List.take_append_drop _ _
  have hperm2 : ((screened.filter (fun s => !s.is_flagged_fake)).mergeSort
      scoreDescLE).Perm (screened.filter (fun s => !s.is_flagged_fake)) :=
    List.mergeSort_perm _ _
  refine ⟨rfl, rfl, rfl, ?_, ?_, ?_⟩
  · rw [hsorted]
    exact (List.sorted_mergeSort scoreDescLE_trans scoreDescLE_total _).imp
      fun h => of_decide_eq_true h
  · have hlen : (reportPartition screened top_n).2.1.length
        + (reportPartition screened top_n).2.2.length
        = (screened.filter (fun s => !s.is_flagged_fake)).length := by
      rw [← List.length_append, hsorted]
      exact hperm2.length_eq
    have hfil := (List.filter_append_perm
      (fun s => s.is_flagged_fake) screened).length_eq
    rw [List.length_append] at hfil
    rw [Nat.add_assoc, hlen]
    exact hfil
  · refine List.Perm.trans ?_
      (List.filter_append_perm (fun s => s.is_flagged_fake) screened)
    have h1 : (reportPartition screened top_n).1
        = screened.filter (fun s => s.is_flagged_fake) := rfl
    rw [h1, hsorted]
    exact List.Perm.append_left _ hperm2

/-- C10: the ranking tie-break is input order — the sort of the non-flagged
partition is stable, so any two non-flagged results with equal `final_score`
appear in `top ++ rest` in the same relative order they had in the input
list.  (The whole aggregation output is a deterministic function of the input
list and `top_n` by construction: `reportPartition` is a pure function.) -/
theorem report_sort_stable (screened : List ScreenedCandidate) (top_n : Nat)
    (a b : ScreenedCandidate) (ha : a.is_flagged_fake = false)
    (hb : b.is_flagged_fake = false) (hab : a.final_score = b.final_score)
    (hsub : List.Sublist [a, b] screened) :
    List.Sublist [a, b] ((reportPartition screened top_n).2.1
      ++ (reportPartition screened top_n).2.2) := by
  have hsorted : (reportPartition screened top_n).2.1
      ++ (reportPartition screened top_n).2.2
      = (screened.filter (fun s => !s.is_flagged_fake)).mergeSort
          scoreDescLE := List.take_append_drop _ _
  have h1 : List.Sublist [a, b]
      (screened.filter (fun s => !s.is_flagged_fake)) := by
    have h := hsub.filter (fun s => !s.is_flagged_fake)
    simpa [List.filter, ha, hb] using h
  have hle : scoreDescLE a b :=
    decide_eq_true (le_of_eq hab.symm)
  rw [hsorted]
  exact List.pair_sublist_mergeSort scoreDescLE_trans scoreDescLE_total hle h1

/-- Two concrete non-flagged screened results with equal final scores. -/
def screenedA : ScreenedCandidate :=
  { candidate := { name := "A", email := "a@x" }, linkedin := {},
    fake_detection := {}, qualification := {} }

/-- A second concrete non-flagged screened result, same final score as
`screenedA`. -/
def screenedB : ScreenedCandidate :=
  { candidate := { name := "B", email := "b@x" }, linkedin := {},
    fake_detection := {}, qualification := {} }

/-- C10 witness: the theorem applied to two concrete tied, non-flagged
results in input order. -/
theorem report_sort_stable_witness :
    List.Sublist [screenedA, screenedB]
      ((reportPartition [screenedA, screenedB] 1).2.1
        ++ (reportPartition [screenedA, screenedB] 1).2.2) :=
  report_sort_stable [screenedA, screenedB] 1 screenedA screenedB rfl rfl rfl
    (List.Sublist.refl _)

/-- Whether `future.result()` succeeded for one task. -/
def exceptOk : Except String ScreenedCandidate → Bool
  | .ok _ => true
  | .error _ => false

/-- Collected results account for exactly the non-raising tasks. -/
theorem collect_results_length
    (outcomes : List (Candidate × Except String ScreenedCandidate)) :
    (collect_results outcomes).1.length
        + outcomes.countP (fun q => !(exceptOk q.2)) = outcomes.length := by
  induction outcomes with
  | nil => rfl
  | cons p rest ih =>
    obtain ⟨c, r⟩ := p
    cases r with
    | ok s =>
      have hc : (fun q : Candidate × Except String ScreenedCandidate =>
          !(exceptOk q.2)) (c, Except.ok s) = false := rfl
      simp only [collect_results, List.countP_cons, hc, List.length_cons,
        Bool.false_eq_true, if_false]
      omega
    | error e =>
      have hc : (fun q : Candidate × Except String ScreenedCandidate =>
          !(exceptOk q.2)) (c, Except.error e) = true := rfl
      simp only [collect_results, List.countP_cons, hc, List.length_cons,
        if_true]
      omega

/-- Every successful task's result is collected. -/
theorem collect_results_mem_ok
    (outcomes : List (Candidate × Except String ScreenedCandidate))
    (c : Candidate) (s : ScreenedCandidate)
    (h : (c, Except.ok s) ∈ outcomes) : s ∈ (collect_results outcomes).1 := by
  induction outcomes with
  | nil => cases h
  | cons p rest ih =>
    obtain ⟨c', r⟩ := p
    rcases List.mem_cons.mp h with heq | hm
    · injection heq with h1 h2
      subst h2
      simp [collect_results]
    · cases r with
      | ok a => exact List.mem_cons_of_mem _ (ih hm)
      | error e' => exact ih hm

/-- Every raising task is logged with the candidate's name. -/
theorem collect_results_mem_err
    (outcomes : List (Candidate × Except String ScreenedCandidate))
    (c : Candidate) (e : String)
    (h : (c, Except.error e) ∈ outcomes) :
    (c.name, e) ∈ (collect_results outcomes).2 := by
  induction outcomes with
  | nil => cases h
  | cons p rest ih =>
    obtain ⟨c', r⟩ := p
    rcases List.mem_cons.mp h with heq | hm
    · injection heq with h1 h2
      subst h1 h2
      simp [collect_results]
    · cases r with
      | ok a => exact ih hm
      | error e' => exact List.mem_cons_of_mem _ (ih hm)

/-- C6: in the orchestrator's collection loop, if exactly one per-candidate
task raises, the output list has N−1 elements; every other task's result
appears in the output, and the raising task is logged with its candidate's
name.  The run completes: `collect_results` is total. -/
theorem orchestrator_failure_containment
    (outcomes : List (Candidate × Except String ScreenedCandidate))
    (h : outcomes.countP (fun q => !(exceptOk q.2)) = 1) :
    (collect_results outcomes).1.length = outcomes.length - 1
      ∧ (∀ c s, (c, Except.ok s) ∈ outcomes →
          s ∈ (collect_results outcomes).1)
      ∧ (∀ c e, (c, Except.error e) ∈ outcomes →
          (c.name, e) ∈ (collect_results outcomes).2) := by
  refine ⟨?_, fun c s hm => collect_results_mem_ok outcomes c s hm,
    fun c e hm => collect_results_mem_err outcomes c e hm⟩
  have := collect_results_length outcomes
  omega

/-- A demonstration batch of three completed futures, the middle one raising. -/
def demoOutcomes : List (Candidate × Except String ScreenedCandidate) :=
  [ ({ name := "A", email := "a@x" }, Except.ok screenedA)
  , ({ name := "B", email := "b@x" }, Except.error "boom")
  , ({ name := "C", email := "c@x" }, Except.ok screenedB) ]

/-- C6 witness: the theorem applied to a concrete batch of three tasks with
exactly one forced failure. -/
theorem orchestrator_failure_containment_witness :
    (collect_results demoOutcomes).1.length = demoOutcomes.length - 1
      ∧ (∀ c s, (c, Except.ok s) ∈ demoOutcomes →
          s ∈ (collect_results demoOutcomes).1)
      ∧ (∀ c e, (c, Except.error e) ∈ demoOutcomes →
          (c.name, e) ∈ (collect_results demoOutcomes).2) :=
  orchestrator_failure_containment demoOutcomes (by decide)

/-- C9: every candidate produced by CSV parsing has a non-empty name or a
non-empty email; a row with both missing never becomes a candidate. -/
theorem parse_csv_name_or_email (rows : List (List String))
    (overrides : List (String × String)) (c : Candidate)
    (hc : c ∈ parse_csv rows overrides) :
    c.name ≠ "" ∨ c.email ≠ "" := by
  match rows with
  | [] => cases hc
  | headers :: body =>
    rw [parse_csv] at hc
    split at hc
    · cases hc
    · obtain ⟨row, hrow, hparse⟩ := List.mem_filterMap.mp hc
      simp only [parse_row] at hparse
      split at hparse
      · cases hparse
      · split at hparse
        · cases hparse
        · rename_i hne
          injection hparse with hcand
          subst hcand
          simpa using not_and_or.mp hne

/-- C9 witness: the theorem applied to a concrete two-row CSV. -/
theorem parse_csv_name_or_email_witness :
    ({ name := "Alice", email := "a@x.com" } : Candidate).name ≠ ""
      ∨ ({ name := "Alice", email := "a@x.com" } : Candidate).email ≠ "" :=
  parse_csv_name_or_email [["Name", "Email"], [" Alice ", "a@x.com"]] []
    { name := "Alice", email := "a@x.com" } (by decide)

/-- The candidate list the pipeline would iterate over, `[]` when the CSV
file itself is missing. -/
def parsedCandidates (csv : Option (List (List String)))
    (overrides : List (String × String)) : List Candidate :=
  match csv with
  | none => []
  | some rows => parse_csv rows overrides

/-- C8 counterexample: with a non-empty API key and an existing job
description but a missing CSV file, the run aborts (via the uncaught
`FileNotFoundError` from `parse_csv`) although none of the three conditions
named by the claim — missing credential, empty candidate list, missing
job-description file — is the cause: the abort is a fourth condition, so
"no other condition aborts the run" fails. -/
theorem preflight_missing_csv_aborts :
    (run_pipeline { anthropic_api_key := "sk-key" } none (some "the jd")
          (fun c => Except.ok (process_one { anthropic_api_key := "sk-key" } c
            ⟨.callFailure, none, none⟩))).1
        = RunOutcome.errorCsvNotFound
      ∧ ({ anthropic_api_key := "sk-key" } : Config).anthropic_api_key ≠ ""
      ∧ (some "the jd" : Option String) ≠ none
      ∧ RunOutcome.errorCsvNotFound.isAborted = true
      ∧ RunOutcome.errorCsvNotFound ≠ RunOutcome.exitMissingApiKey
      ∧ RunOutcome.errorCsvNotFound ≠ RunOutcome.exitNoCandidates
      ∧ RunOutcome.errorCsvNotFound ≠ RunOutcome.errorJdNotFound := by
  refine ⟨rfl, ?_, ?_, rfl, ?_, ?_, ?_⟩ <;> decide

/-- C8 amended: a run aborts exactly when the primary credential is missing,
the CSV file is missing (the fourth condition the counterexample exhibits),
the parsed candidate list is empty, or the job-description file is missing;
every abort is signalled by a distinct `RunOutcome` and happens before any
per-candidate task is dispatched (the dispatched list is empty). -/
theorem preflight_aborts_iff (config : Config)
    (csv : Option (List (List String))) (jd : Option String)
    (task : Candidate → Except String ScreenedCandidate) :
    ((run_pipeline config csv jd task).1.isAborted = true ↔
        (config.anthropic_api_key = "" ∨ csv = none
          ∨ parsedCandidates csv config.column_mapping = [] ∨ jd = none))
      ∧ ((run_pipeline config csv jd task).1.isAborted = true →
          (run_pipeline config csv jd task).2 = []) := by
  by_cases hkey : config.anthropic_api_key = ""
  · simp [run_pipeline, hkey, RunOutcome.isAborted]
  · cases csv with
    | none =>
      simp [run_pipeline, hkey, RunOutcome.isAborted, parsedCandidates]
    | some rows =>
      by_cases hcand : parse_csv rows config.column_mapping = []
      · simp [run_pipeline, hkey, hcand, RunOutcome.isAborted,
          parsedCandidates, List.isEmpty_iff]
      · cases jd with
        | none =>
          simp [run_pipeline, hkey, hcand, RunOutcome.isAborted,
            parsedCandidates, List.isEmpty_iff]
        | some jdText =>
          simp [run_pipeline, hkey, hcand, RunOutcome.isAborted,
            parsedCandidates, List.isEmpty_iff]

/-- C8 amended witness: the theorem applied to the empty configuration (no
credential), where the run aborts with nothing dispatched. -/
theorem preflight_aborts_iff_witness :
    (run_pipeline {} none none (fun _ => Except.error "x")).1.isAborted = true
      ∧ (run_pipeline {} none none (fun _ => Except.error "x")).2 = [] :=
  ⟨(preflight_aborts_iff {} none none (fun _ => Except.error "x")).1.mpr
      (Or.inl rfl),
    (preflight_aborts_iff {} none none (fun _ => Except.error "x")).2
      ((preflight_aborts_iff {} none none (fun _ => Except.error "x")).1.mpr
        (Or.inl rfl))⟩

end CandidateScreener
